import Mathlib

/-!
Shallow embedding of the YouTube transcript viewer (src/app.py) and proofs
of the specification claims about it.

Strings are modelled as Lean `String` (a wrapper around `List Char`), the
Python regular-expression searches used by `extract_video_id` are embedded
as explicit left-to-right searches with the exact alternation and greediness
semantics of Python's `re.search`, numbers arriving from the transcript API
are modelled as rationals, and the network-facing calls of `get_transcript`
are modelled as an explicit environment of oracles together with a trace of
the attempts made.
-/

/-- Character class `[a-zA-Z0-9_-]` used by every pattern in
`extract_video_id`. -/
def isAllowedChar (c : Char) : Bool :=
  ('a' ≤ c && c ≤ 'z') || ('A' ≤ c && c ≤ 'Z') || ('0' ≤ c && c ≤ '9') ||
    c == '_' || c == '-'

/-- The fast path of `extract_video_id` (src/app.py line 18):
`len(url_or_id) == 11 and re.match(r'^[a-zA-Z0-9_-]{11}$', url_or_id)`.
With the length pinned to 11, the anchored match holds exactly when every
character is in the allowed class. -/
def isBareId (l : List Char) : Bool :=
  l.length == 11 && l.all isAllowedChar

/-- Capture group `([a-zA-Z0-9_-]{11})`: succeeds when the next 11
characters exist and are all allowed, capturing exactly those 11. -/
def take11Allowed (l : List Char) : Option (List Char) :=
  if (l.take 11).length == 11 && (l.take 11).all isAllowedChar then
    some (l.take 11)
  else none

/-- Literal alternative `youtube\.com\/watch\?v=` of the first pattern. -/
def pat1a : List Char := "youtube.com/watch?v=".toList

/-- Literal alternative `youtu\.be\/` of the first pattern. -/
def pat1b : List Char := "youtu.be/".toList

/-- Literal alternative `youtube\.com\/embed\/` of the first pattern. -/
def pat1c : List Char := "youtube.com/embed/".toList

/-- One attempt of pattern
`(?:youtube\.com\/watch\?v=|youtu\.be\/|youtube\.com\/embed\/)([a-zA-Z0-9_-]{11})`
at a fixed start position: the three literal alternatives are tried in
order, each followed by the 11-character capture, exactly as Python's
backtracking does at one position. -/
def tryPat1At (l : List Char) : Option (List Char) :=
  (if pat1a.isPrefixOf l then take11Allowed (l.drop pat1a.length) else none) <|>
  (if pat1b.isPrefixOf l then take11Allowed (l.drop pat1b.length) else none) <|>
  (if pat1c.isPrefixOf l then take11Allowed (l.drop pat1c.length) else none)

/-- `re.search` with the first pattern: try each start position from the
left, returning the leftmost successful capture. -/
def searchPat1 : List Char → Option (List Char)
  | [] => none
  | c :: rest => tryPat1At (c :: rest) <|> searchPat1 rest

/-- The `[?&]v=([a-zA-Z0-9_-]{11})` tail of the second pattern, at a fixed
position. -/
def tryVEqAt (l : List Char) : Option (List Char) :=
  match l with
  | c1 :: c2 :: c3 :: rest =>
    if (c1 == '?' || c1 == '&') && c2 == 'v' && c3 == '=' then
      take11Allowed rest
    else none
  | _ => none

/-- The `.*[?&]v=([a-zA-Z0-9_-]{11})` tail of the second pattern: `.*` is
greedy and does not cross a newline, so the rightmost viable `[?&]v=`
position wins and every character skipped must be different from a
newline. -/
def searchGreedyVEq : List Char → Option (List Char)
  | [] => none
  | c :: rest =>
    (if c == '\n' then none else searchGreedyVEq rest) <|> tryVEqAt (c :: rest)

/-- Literal head `youtube\.com\/` of the second pattern. -/
def pat2head : List Char := "youtube.com/".toList

/-- One attempt of pattern `youtube\.com\/.*[?&]v=([a-zA-Z0-9_-]{11})` at a
fixed start position. -/
def tryPat2At (l : List Char) : Option (List Char) :=
  if pat2head.isPrefixOf l then searchGreedyVEq (l.drop pat2head.length)
  else none

/-- `re.search` with the second pattern: leftmost start position wins. -/
def searchPat2 : List Char → Option (List Char)
  | [] => none
  | c :: rest => tryPat2At (c :: rest) <|> searchPat2 rest

/-- Embedding of `extract_video_id` (src/app.py lines 15-32): the bare-ID
fast path, then the two `re.search` patterns in order, then `None`. -/
def extract_video_id (s : String) : Option String :=
  if isBareId s.data then some s
  else
    match searchPat1 s.data with
    | some c => some (String.mk c)
    | none =>
      match searchPat2 s.data with
      | some c => some (String.mk c)
      | none => none

/-- A raw transcript segment as delivered by the transcript API: a start
offset in seconds (a Python float, modelled as a rational) and a text
payload. -/
structure RawSegment where
  start : ℚ
  text : String
deriving DecidableEq

/-- A formatted transcript segment as built by `format_transcript`. -/
structure FormattedSegment where
  time : ℚ
  text : String
  formatted_time : String
deriving DecidableEq

/-- Python's `int(...)` on a float: truncation toward zero. -/
def pyInt (q : ℚ) : ℤ :=
  if 0 ≤ q then q.floor else q.ceil

/-- Python's `//` on floats: floor division, yielding an integral float. -/
def pyFloorDiv (a b : ℚ) : ℚ :=
  ((a / b).floor : ℚ)

/-- Python's `%` on floats: `a - b * (a // b)`, whose sign follows the
divisor. -/
def pyMod (a b : ℚ) : ℚ :=
  a - b * ((a / b).floor : ℚ)

/-- Python's format specifier `{n:02d}` for an integer: zero-pad to a
minimum width of two, never truncating. For a non-negative single-digit
value this prepends one `0`; any longer rendering (including negative
values, whose sign fills the width) is kept as plain decimal. -/
def fmt02d (n : ℤ) : String :=
  if 0 ≤ n && n < 10 then "0" ++ toString n else toString n

/-- Embedding of `format_transcript`'s per-entry dictionary
(src/app.py lines 67-71): `time` and `text` are copied unchanged and
`formatted_time` is
`f"{int(entry['start'] // 60):02d}:{int(entry['start'] % 60):02d}"`. -/
def format_entry (e : RawSegment) : FormattedSegment :=
  { time := e.start
    text := e.text
    formatted_time :=
      fmt02d (pyInt (pyFloorDiv e.start 60)) ++ ":" ++
        fmt02d (pyInt (pyMod e.start 60)) }

/-- Embedding of `format_transcript` (src/app.py lines 63-72): the loop
appends one formatted entry per raw entry, in order. -/
def format_transcript (transcript_list : List RawSegment) : List FormattedSegment :=
  transcript_list.map format_entry

/-- The proxies dictionary built by `get_transcript` when a proxy is
configured: `{'http': f'http://{proxy}', 'https': f'http://{proxy}'}`. -/
structure Proxies where
  http : String
  https : String
deriving DecidableEq

/-- One externally visible retrieval attempt made by `get_transcript`,
recorded in order in a trace. -/
inductive Attempt where
  | proxyAttempt (proxies : Proxies)
  | directAttempt
  | enumAttempt
deriving DecidableEq

/-- The process-wide state and the network-facing collaborators of
`get_transcript`, modelled as oracles: the `YOUTUBE_PROXY` environment
variable as read at call time, `YouTubeTranscriptApi.get_transcript` with
and without a proxies argument, and `YouTubeTranscriptApi.list_transcripts`
reduced to the language codes it would enumerate. An `Except.error` models
the call raising an exception with that message. -/
structure Env where
  proxyVar : Option String
  proxyFetch : String → Proxies → Except String (List RawSegment)
  directFetch : String → Except String (List RawSegment)
  listTranscripts : String → Except String (List String)

/-- Embedding of the fallback block of `get_transcript`
(src/app.py lines 50-61): the direct attempt, then on failure the
language enumeration. The inner `raise Exception("Could not get
transcript. Available languages: ...")` on line 59 is raised inside the
inner `try`, so the bare `except:` on line 60 intercepts it and raises the
generic message instead; hence both enumeration outcomes surface the same
final message, and the constructed languages message is dead. The second
component is the trace of attempts made. -/
def direct_phase (env : Env) (video_id : String) :
    Except String (List FormattedSegment) × List Attempt :=
  match env.directFetch video_id with
  | .ok transcript_list => (.ok (format_transcript transcript_list), [.directAttempt])
  | .error e =>
    match env.listTranscripts video_id with
    | .ok available_languages =>
      let _swallowed :=
        "Could not get transcript. Available languages: " ++
          String.intercalate (", ") available_languages
      (.error ("No transcript available for video " ++ video_id ++ ": " ++ e),
        [.directAttempt, .enumAttempt])
    | .error _ =>
      (.error ("No transcript available for video " ++ video_id ++ ": " ++ e),
        [.directAttempt, .enumAttempt])

/-- Embedding of `get_transcript` (src/app.py lines 34-61): read the
`YOUTUBE_PROXY` variable; when it is set and non-empty (Python truthiness
of `os.getenv`), first attempt retrieval through the proxies dictionary,
and on any failure only log it and fall back; then the direct attempt and,
on its failure, the enumeration attempt. The second component is the
ordered trace of attempts made. -/
def get_transcript (env : Env) (video_id : String) :
    Except String (List FormattedSegment) × List Attempt :=
  match env.proxyVar with
  | none => direct_phase env video_id
  | some proxy =>
    if proxy = "" then direct_phase env video_id
    else
      let proxies : Proxies :=
        { http := "http://" ++ proxy, https := "http://" ++ proxy }
      match env.proxyFetch video_id proxies with
      | .ok transcript_list =>
        (.ok (format_transcript transcript_list), [.proxyAttempt proxies])
      | .error _ =>
        let rest := direct_phase env video_id
        (rest.1, .proxyAttempt proxies :: rest.2)

/-- A response page of the HTML path, as handed to `render_template`. -/
inductive Page where
  | errorPage (error_message : String)
  | transcriptPage (video_id : String) (transcript : List FormattedSegment)
      (proxy_used : String)
deriving DecidableEq

/-- Embedding of the `/watch` handler (src/app.py lines 79-105).
`request.args.get('v')` is `None` when the parameter is missing; Python's
`if not video_id_param` treats `None` and the empty string alike.
`extract_video_id` never returns an empty string, so `if not video_id` is
the `None` check. A handler without an explicit status returns 200. -/
def watch (env : Env) (video_id_param : Option String) : Page × Nat :=
  match video_id_param with
  | none => (.errorPage ("No video ID provided. Please use /watch?v=VIDEO_ID"), 400)
  | some s =>
    if s = "" then
      (.errorPage ("No video ID provided. Please use /watch?v=VIDEO_ID"), 400)
    else
      match extract_video_id s with
      | none => (.errorPage ("Invalid video ID format"), 400)
      | some video_id =>
        match (get_transcript env video_id).1 with
        | .ok transcript =>
          (.transcriptPage video_id transcript (env.proxyVar.getD ("None")), 200)
        | .error e => (.errorPage e, 500)

/-- A JSON response of the API path. -/
inductive ApiResponse where
  | apiSuccess (video_id : String) (transcript : List FormattedSegment)
      (proxy_used : Option String)
  | apiFailure (error : String)
deriving DecidableEq

/-- Embedding of the `/api/transcript/<video_id>` handler
(src/app.py lines 107-122): the path string is handed to `get_transcript`
unchanged, success is serialized with status 200 and any failure with
status 500. -/
def api_transcript (env : Env) (video_id : String) : ApiResponse × Nat :=
  match (get_transcript env video_id).1 with
  | .ok transcript => (.apiSuccess video_id transcript env.proxyVar, 200)
  | .error e => (.apiFailure e, 500)

/-- The rendering rule as the specification states it: zero-pad an integer
to at least two digits, never truncating values that need more digits
(stated for the non-negative values the rule concerns). -/
def specPad2 (n : ℤ) : String :=
  if n < 10 then "0" ++ toString n else toString n

/-- The two-segment mocked transcript of end-to-end scenario 1. -/
def demoSegs : List RawSegment :=
  [{ start := 0, text := "a" }, { start := 75, text := "b" }]

/-- An environment in which the configured proxy fails, the direct fetch
fails, and language enumeration succeeds with Spanish and French. -/
def envC1 : Env :=
  { proxyVar := some ("198.51.100.7:3128")
    proxyFetch := fun _ _ => .error ("proxy refused")
    directFetch := fun _ => .error ("direct refused")
    listTranscripts := fun _ => .ok [("es"), ("fr")] }

/-- An environment in which every network attempt fails. -/
def envAllFail : Env :=
  { proxyVar := some ("198.51.100.7:3128")
    proxyFetch := fun _ _ => .error ("proxy refused")
    directFetch := fun _ => .error ("direct refused")
    listTranscripts := fun _ => .error ("listing refused") }

/-- An environment with a configured proxy whose attempt succeeds. -/
def envProxyOk : Env :=
  { proxyVar := some ("198.51.100.7:3128")
    proxyFetch := fun _ _ => .ok demoSegs
    directFetch := fun _ => .ok []
    listTranscripts := fun _ => .ok [] }

/-- An environment with no proxy configured and a failing direct fetch. -/
def envNoProxy : Env :=
  { proxyVar := none
    proxyFetch := fun _ _ => .error ("unused")
    directFetch := fun _ => .error ("direct refused")
    listTranscripts := fun _ => .error ("listing refused") }

/-- The executable `Rat.floor` agrees with the mathematical floor. -/
theorem ratFloor_eq (q : ℚ) : q.floor = ⌊q⌋ :=
  (Rat.floor_def' q).trans Rat.floor_def.symm

/-- The executable `Rat.ceil` of an integer is that integer. -/
theorem ratCeil_intCast (n : ℤ) : ((n : ℚ)).ceil = n := by
  simp [Rat.ceil, Rat.den_intCast, Rat.num_intCast]

/-- Python truncation applied to an integral value is the identity. -/
theorem pyInt_intCast (n : ℤ) : pyInt ((n : ℚ)) = n := by
  unfold pyInt
  split
  · rw [ratFloor_eq, Int.floor_intCast]
  · exact ratCeil_intCast n

/-- Python truncation of a non-negative value is the floor. -/
theorem pyInt_of_nonneg {q : ℚ} (h : 0 ≤ q) : pyInt q = ⌊q⌋ := by
  unfold pyInt
  rw [if_pos h, ratFloor_eq]

/-- For non-negative inputs the Python format specifier coincides with the
padding rule of the specification. -/
theorem fmt02d_eq_specPad2 {n : ℤ} (h : 0 ≤ n) : fmt02d n = specPad2 n := by
  unfold fmt02d specPad2
  by_cases h10 : n < 10 <;> simp [h, h10]

/-- C3: every input string of exactly 11 characters drawn from
`[a-zA-Z0-9_-]` is returned unchanged by `extract_video_id`. -/
theorem extract_video_id_bare (s : String) (hlen : s.length = 11)
    (hall : ∀ c ∈ s.data, isAllowedChar c = true) :
    extract_video_id s = some s := by
  have hb : isBareId s.data = true := by
    have hl : s.data.length = 11 := hlen
    simp [isBareId, hl, List.all_eq_true]
    exact hall
  simp [extract_video_id, hb]

/-- Witness for C3 at the concrete bare identifier of scenario 1. -/
theorem extract_video_id_bare_witness :
    ("dQw4w9WgXcQ" : String).length = 11 ∧
      extract_video_id ("dQw4w9WgXcQ") = some ("dQw4w9WgXcQ") :=
  ⟨by decide, extract_video_id_bare _ (by decide) (by decide)⟩

/-- C4: `extract_video_id` yields `none` exactly when the input is not a
bare 11-character allowed identifier and neither search pattern matches
anywhere in it; being a total function it never raises. -/
theorem extract_video_id_none_iff (s : String) :
    extract_video_id s = none ↔
      isBareId s.data = false ∧ searchPat1 s.data = none ∧
        searchPat2 s.data = none := by
  unfold extract_video_id
  cases hb : isBareId s.data
  · cases h1 : searchPat1 s.data
    · cases h2 : searchPat2 s.data <;> simp
    · simp
  · simp

/-- C5: for a segment with non-negative start time, the rendered
`formatted_time` is `floor(start / 60)` minutes and `floor(start mod 60)`
seconds, each zero-padded to at least two digits with no truncation and no
hour rollover. -/
theorem format_entry_time_rendering (e : RawSegment) (h : 0 ≤ e.start) :
    (format_entry e).formatted_time =
      specPad2 ⌊e.start / 60⌋ ++ ":" ++
        specPad2 ⌊e.start - 60 * (⌊e.start / 60⌋ : ℚ)⌋ := by
  have hq : (0 : ℚ) ≤ e.start / 60 := by positivity
  have hmul : (60 : ℚ) * (e.start / 60) = e.start := by
    rw [mul_comm, div_mul_cancel₀]
    norm_num
  have hmod : (0 : ℚ) ≤ e.start - 60 * (⌊e.start / 60⌋ : ℚ) := by
    have h1 : (⌊e.start / 60⌋ : ℚ) ≤ e.start / 60 := Int.floor_le _
    have h2 : (60 : ℚ) * (⌊e.start / 60⌋ : ℚ) ≤ 60 * (e.start / 60) :=
      mul_le_mul_of_nonneg_left h1 (by norm_num)
    rw [hmul] at h2
    linarith
  have hmin0 : 0 ≤ ⌊e.start / 60⌋ := Int.floor_nonneg.mpr hq
  have hsec0 : 0 ≤ ⌊e.start - 60 * (⌊e.start / 60⌋ : ℚ)⌋ := Int.floor_nonneg.mpr hmod
  show fmt02d (pyInt (pyFloorDiv e.start 60)) ++ ":" ++
      fmt02d (pyInt (pyMod e.start 60)) = _
  rw [show pyFloorDiv e.start 60 = ((⌊e.start / 60⌋ : ℤ) : ℚ) by
        rw [pyFloorDiv, ratFloor_eq],
      pyInt_intCast,
      show pyMod e.start 60 = e.start - 60 * (⌊e.start / 60⌋ : ℚ) by
        rw [pyMod, ratFloor_eq],
      pyInt_of_nonneg hmod,
      fmt02d_eq_specPad2 hmin0, fmt02d_eq_specPad2 hsec0]

/-- Witness for C5 at start time 3661, which renders as 61 minutes and 1
second with no hour rollover. -/
theorem format_entry_time_rendering_witness :
    (0 : ℚ) ≤ 3661 ∧
      (format_entry { start := 3661, text := "t" }).formatted_time = "61:01" := by
  refine ⟨by norm_num, ?_⟩
  rw [format_entry_time_rendering { start := 3661, text := "t" } (by norm_num)]
  norm_num
  decide

/-- C6: `format_transcript` preserves length and order, and the i-th
formatted segment carries the i-th raw segment's start time and text
unchanged. -/
theorem format_transcript_preserves (l : List RawSegment) :
    (format_transcript l).length = l.length ∧
      ∀ i, i < l.length →
        ∃ r f, l[i]? = some r ∧ (format_transcript l)[i]? = some f ∧
          f.time = r.start ∧ f.text = r.text := by
  constructor
  · simp [format_transcript]
  · intro i hi
    refine ⟨l[i], format_entry l[i], List.getElem?_eq_getElem hi, ?_, rfl, rfl⟩
    simp [format_transcript, List.getElem?_eq_getElem hi]

/-- Witness for C6 on the two-segment transcript of scenario 1, at
index 1. -/
theorem format_transcript_preserves_witness :
    (format_transcript demoSegs).length = demoSegs.length ∧
      (1 < demoSegs.length ∧
        ∃ r f, demoSegs[1]? = some r ∧ (format_transcript demoSegs)[1]? = some f ∧
          f.time = r.start ∧ f.text = r.text) :=
  ⟨(format_transcript_preserves demoSegs).1,
    by decide, (format_transcript_preserves demoSegs).2 1 (by decide)⟩

/-- Unfolding of `get_transcript` when a proxy is configured and the proxy
attempt fails: the outcome is that of the fallback block, with the proxy
attempt prepended to the trace. -/
theorem get_transcript_proxyfail (env : Env) (video_id p e : String)
    (hp : env.proxyVar = some p) (hne : p ≠ "")
    (hfail : env.proxyFetch video_id
      { http := "http://" ++ p, https := "http://" ++ p } = .error e) :
    get_transcript env video_id =
      ((direct_phase env video_id).1,
        .proxyAttempt { http := "http://" ++ p, https := "http://" ++ p } ::
          (direct_phase env video_id).2) := by
  unfold get_transcript
  rw [hp]
  simp only [if_neg hne]
  rw [hfail]

/-- The fallback block records exactly one direct attempt, optionally
followed by one enumeration attempt. -/
theorem direct_phase_trace (env : Env) (video_id : String) :
    (direct_phase env video_id).2 = [.directAttempt] ∨
      (direct_phase env video_id).2 = [.directAttempt, .enumAttempt] := by
  unfold direct_phase
  cases hd : env.directFetch video_id
  · cases hl : env.listTranscripts video_id <;> right <;> rfl
  · left; rfl

/-- When the direct fetch fails, the fallback block fails with the generic
message built from the direct failure, whatever enumeration returns, and
its trace is one direct attempt followed by one enumeration attempt. -/
theorem direct_phase_error (env : Env) (video_id e2 : String)
    (hd : env.directFetch video_id = .error e2) :
    (direct_phase env video_id).1 =
        .error ("No transcript available for video " ++ video_id ++ ": " ++ e2) ∧
      (direct_phase env video_id).2 = [.directAttempt, .enumAttempt] := by
  unfold direct_phase
  rw [hd]
  cases hl : env.listTranscripts video_id <;> exact ⟨rfl, rfl⟩

/-- C2: when the proxy attempt throws, the direct attempt is still made
exactly once and the proxy failure is never surfaced (the outcome is
exactly that of the fallback block); when the direct attempt also throws,
enumeration is attempted exactly once and the final failure is raised. -/
theorem get_transcript_fallback (env : Env) (video_id p e : String)
    (hp : env.proxyVar = some p) (hne : p ≠ "")
    (hfail : env.proxyFetch video_id
      { http := "http://" ++ p, https := "http://" ++ p } = .error e) :
    (get_transcript env video_id).2.count .directAttempt = 1 ∧
      (get_transcript env video_id).1 = (direct_phase env video_id).1 ∧
      ∀ e2, env.directFetch video_id = .error e2 →
        (get_transcript env video_id).2.count .enumAttempt = 1 ∧
        (get_transcript env video_id).1 =
          .error ("No transcript available for video " ++ video_id ++ ": " ++ e2) := by
  have hgt := get_transcript_proxyfail env video_id p e hp hne hfail
  refine ⟨?_, ?_, ?_⟩
  · rw [hgt]
    rcases direct_phase_trace env video_id with h | h <;>
      simp [h, List.count_cons]
  · rw [hgt]
  · intro e2 hd
    obtain ⟨h1, h2⟩ := direct_phase_error env video_id e2 hd
    rw [hgt, h2]
    constructor
    · simp [List.count_cons]
    · simp [h1]

/-- Witness for C2 in an environment where every network attempt fails. -/
theorem get_transcript_fallback_witness :
    (get_transcript envAllFail ("dQw4w9WgXcQ")).2.count .directAttempt = 1 ∧
      (get_transcript envAllFail ("dQw4w9WgXcQ")).2.count .enumAttempt = 1 :=
  ⟨(get_transcript_fallback envAllFail _ _ _ rfl (by decide) rfl).1,
    ((get_transcript_fallback envAllFail _ _ _ rfl (by decide) rfl).2.2 _ rfl).1⟩

/-- C1 (code behaviour at the failing input): with a failing proxy, a
failing direct fetch and an enumeration that succeeds with es and fr, the
raised error is the generic fallback message, not the intended message
listing the available language codes, because the inner raise is caught by
the bare except. -/
theorem get_transcript_swallows_languages :
    get_transcript envC1 ("dQw4w9WgXcQ") =
      (.error ("No transcript available for video dQw4w9WgXcQ: direct refused"),
        [.proxyAttempt { http := "http://198.51.100.7:3128",
                         https := "http://198.51.100.7:3128" },
          .directAttempt, .enumAttempt]) ∧
    (get_transcript envC1 ("dQw4w9WgXcQ")).1 ≠
      .error ("Could not get transcript. Available languages: es, fr") := by
  constructor
  · rfl
  · intro h
    have h2 : Except.error (ε := String) (α := List FormattedSegment)
        ("No transcript available for video dQw4w9WgXcQ: direct refused") =
        .error ("Could not get transcript. Available languages: es, fr") := h
    injection h2 with h3
    exact absurd h3 (by decide)

/-- C7: a proxy attempt happens first, routing both HTTP and HTTPS through
the configured address, exactly when the proxy variable is set and
non-empty; otherwise no proxy attempt is ever made and the first attempt
is the direct one. -/
theorem get_transcript_proxy_gating (env : Env) (video_id : String) :
    (∀ p, env.proxyVar = some p → p ≠ "" →
      (get_transcript env video_id).2.head? =
        some (.proxyAttempt { http := "http://" ++ p, https := "http://" ++ p })) ∧
    ((env.proxyVar = none ∨ env.proxyVar = some "") →
      (∀ pr, Attempt.proxyAttempt pr ∉ (get_transcript env video_id).2) ∧
      (get_transcript env video_id).2.head? = some .directAttempt) := by
  constructor
  · intro p hp hne
    unfold get_transcript
    rw [hp]
    simp only [if_neg hne]
    cases hf : env.proxyFetch video_id
        { http := "http://" ++ p, https := "http://" ++ p } <;> simp
  · intro h
    have hgt : get_transcript env video_id = direct_phase env video_id := by
      rcases h with h | h <;> (unfold get_transcript; rw [h]; try simp)
    rw [hgt]
    rcases direct_phase_trace env video_id with h2 | h2 <;> rw [h2] <;>
      exact ⟨by intro pr; simp, rfl⟩

/-- Witness for C7: with a configured proxy the first attempt is the proxy
attempt with both schemes routed through it; with no proxy configured no
proxy attempt occurs and the first attempt is direct. -/
theorem get_transcript_proxy_gating_witness :
    (get_transcript envProxyOk ("dQw4w9WgXcQ")).2.head? =
        some (.proxyAttempt { http := "http://198.51.100.7:3128",
                              https := "http://198.51.100.7:3128" }) ∧
      ((∀ pr, Attempt.proxyAttempt pr ∉ (get_transcript envNoProxy ("dQw4w9WgXcQ")).2) ∧
        (get_transcript envNoProxy ("dQw4w9WgXcQ")).2.head? = some .directAttempt) :=
  ⟨(get_transcript_proxy_gating envProxyOk _).1 _ rfl (by decide),
    (get_transcript_proxy_gating envNoProxy _).2 (Or.inl rfl)⟩

/-- C8: in the `/watch` handler a missing or empty parameter and a
parameter that fails resolution are client errors (400), while a fetch
failure after successful resolution is a server error (500) carrying the
failure detail as the error message. -/
theorem watch_status_mapping (env : Env) (param : Option String) :
    ((param = none ∨ param = some "") → (watch env param).2 = 400) ∧
      (∀ s, param = some s → s ≠ "" → extract_video_id s = none →
        watch env param = (.errorPage ("Invalid video ID format"), 400)) ∧
      (∀ s vid e, param = some s → s ≠ "" → extract_video_id s = some vid →
        (get_transcript env vid).1 = .error e →
        watch env param = (.errorPage e, 500)) := by
  refine ⟨?_, ?_, ?_⟩
  · rintro (rfl | rfl) <;> rfl
  · rintro s rfl hne hex
    simp only [watch]
    rw [if_neg hne, hex]
  · rintro s vid e rfl hne hex herr
    simp only [watch]
    rw [if_neg hne, hex]
    simp only [herr]

/-- Witness for C8: a missing parameter gives 400, an unresolvable one
gives 400 with the invalid-format page, and a resolvable one whose fetch
fails gives 500 with the failure detail. -/
theorem watch_status_mapping_witness :
    (watch envNoProxy none).2 = 400 ∧
      watch envNoProxy (some ("not-a-valid-id-or-url")) =
        (.errorPage ("Invalid video ID format"), 400) ∧
      watch envNoProxy (some ("dQw4w9WgXcQ")) =
        (.errorPage ("No transcript available for video dQw4w9WgXcQ: direct refused"),
          500) :=
  ⟨(watch_status_mapping envNoProxy none).1 (Or.inl rfl),
    (watch_status_mapping envNoProxy _).2.1 _ rfl (by decide) (by decide),
    (watch_status_mapping envNoProxy _).2.2 ("dQw4w9WgXcQ") ("dQw4w9WgXcQ")
      ("No transcript available for video dQw4w9WgXcQ: direct refused")
      rfl (by decide) (by decide) rfl⟩

/-- C9: the JSON endpoint performs no resolution: the path string reaches
`get_transcript` unchanged, a success serializes it back with status 200,
and every failure is a 500 with the failure detail, never a 400. -/
theorem api_transcript_no_resolution (env : Env) (video_id : String) :
    ((api_transcript env video_id).2 = 200 ∨ (api_transcript env video_id).2 = 500) ∧
      (∀ e, (get_transcript env video_id).1 = .error e →
        api_transcript env video_id = (.apiFailure e, 500)) ∧
      (∀ t, (get_transcript env video_id).1 = .ok t →
        api_transcript env video_id = (.apiSuccess video_id t env.proxyVar, 200)) := by
  refine ⟨?_, ?_, ?_⟩
  · unfold api_transcript
    cases (get_transcript env video_id).1
    · right; rfl
    · left; rfl
  · intro e he
    unfold api_transcript
    rw [he]
  · intro t ht
    unfold api_transcript
    rw [ht]

/-- Witness for C9: a path string that would fail resolution is still
passed to the fetcher and its failure surfaces as a 500, not a 400. -/
theorem api_transcript_no_resolution_witness :
    extract_video_id ("!!") = none ∧
      (get_transcript envNoProxy ("!!")).1 =
        .error ("No transcript available for video !!: direct refused") ∧
      api_transcript envNoProxy ("!!") =
        (.apiFailure ("No transcript available for video !!: direct refused"), 500) :=
  ⟨by decide, rfl,
    (api_transcript_no_resolution envNoProxy _).2.1 _ rfl⟩

/-- With more than 11 allowed characters available, the 11-character
capture group takes exactly the first 11 of them. -/
theorem take11Allowed_long {l : List Char} (hlen : 11 < l.length)
    (hall : ∀ c ∈ l, isAllowedChar c = true) :
    take11Allowed l = some (l.take 11) := by
  have h1 : (l.take 11).length = 11 := by
    rw [List.length_take]
    omega
  have h2 : (l.take 11).all isAllowedChar = true := by
    rw [List.all_eq_true]
    intro c hc
    exact hall c (List.take_subset 11 l hc)
  simp [take11Allowed, h1, h2]

/-- Unfolding of `extract_video_id` when the fast path fails and the first
pattern captures. -/
theorem extract_video_id_eq_of (s : String) (h1 : isBareId s.data = false)
    (c : List Char) (h2 : searchPat1 s.data = some c) :
    extract_video_id s = some (String.mk c) := by
  unfold extract_video_id
  rw [h1, h2]
  rw [if_neg (by simp)]

/-- Every list is a Boolean prefix of itself followed by anything. -/
theorem isPrefixOf_append_self (l₁ l₂ : List Char) :
    l₁.isPrefixOf (l₁ ++ l₂) = true := by
  induction l₁ with
  | nil => simp
  | cons a as ih => simp [List.isPrefixOf_cons₂, ih]

/-- C10: when the identifier position of any of the three URL shapes holds
more than 11 consecutive allowed characters, `extract_video_id` captures
exactly the first 11 of them instead of signalling absence. -/
theorem extract_video_id_overlong (l : List Char) (hlen : 11 < l.length)
    (hall : ∀ c ∈ l, isAllowedChar c = true) :
    extract_video_id ("https://youtube.com/watch?v=" ++ String.mk l) =
        some (String.mk (l.take 11)) ∧
      extract_video_id ("https://youtu.be/" ++ String.mk l) =
        some (String.mk (l.take 11)) ∧
      extract_video_id ("https://youtube.com/embed/" ++ String.mk l) =
        some (String.mk (l.take 11)) := by
  have ht := take11Allowed_long hlen hall
  refine ⟨?_, ?_, ?_⟩
  · have hc28 : ("https://youtube.com/watch?v=".toList).length = 28 := by decide
    have hbare : isBareId ("https://youtube.com/watch?v=".toList ++ l) = false := by
      unfold isBareId
      have hne11 : (("https://youtube.com/watch?v=".toList ++ l).length == 11) = false := by
        rw [List.length_append, hc28]
        simp only [beq_eq_false_iff_ne]
        omega
      rw [hne11]
      rfl
    have hpref : pat1a.isPrefixOf ("youtube.com/watch?v=".toList ++ l) = true :=
      isPrefixOf_append_self pat1a l
    have hdrop : ("youtube.com/watch?v=".toList ++ l).drop pat1a.length = l := rfl
    have hB : (if pat1b.isPrefixOf ("youtube.com/watch?v=".toList ++ l) then
        take11Allowed (("youtube.com/watch?v=".toList ++ l).drop pat1b.length)
        else none) = (none : Option (List Char)) := rfl
    have hC : (if pat1c.isPrefixOf ("youtube.com/watch?v=".toList ++ l) then
        take11Allowed (("youtube.com/watch?v=".toList ++ l).drop pat1c.length)
        else none) = (none : Option (List Char)) := rfl
    have h3 : tryPat1At ("youtube.com/watch?v=".toList ++ l) = take11Allowed l := by
      unfold tryPat1At
      rw [hdrop, hB, hC, hpref]
      cases take11Allowed l <;> rfl
    have hs1 : searchPat1 ("https://youtube.com/watch?v=".toList ++ l) =
        some (l.take 11) := by
      have hskip : searchPat1 ("https://youtube.com/watch?v=".toList ++ l) =
          (tryPat1At ("youtube.com/watch?v=".toList ++ l) <|>
            searchPat1 ("outube.com/watch?v=".toList ++ l)) := rfl
      rw [hskip, h3, ht]
      rfl
    exact extract_video_id_eq_of _ hbare _ hs1
  · have hc17 : ("https://youtu.be/".toList).length = 17 := by decide
    have hbare : isBareId ("https://youtu.be/".toList ++ l) = false := by
      unfold isBareId
      have hne11 : (("https://youtu.be/".toList ++ l).length == 11) = false := by
        rw [List.length_append, hc17]
        simp only [beq_eq_false_iff_ne]
        omega
      rw [hne11]
      rfl
    have hpref : pat1b.isPrefixOf ("youtu.be/".toList ++ l) = true :=
      isPrefixOf_append_self pat1b l
    have hdrop : ("youtu.be/".toList ++ l).drop pat1b.length = l := rfl
    have hA : (if pat1a.isPrefixOf ("youtu.be/".toList ++ l) then
        take11Allowed (("youtu.be/".toList ++ l).drop pat1a.length)
        else none) = (none : Option (List Char)) := rfl
    have hC : (if pat1c.isPrefixOf ("youtu.be/".toList ++ l) then
        take11Allowed (("youtu.be/".toList ++ l).drop pat1c.length)
        else none) = (none : Option (List Char)) := rfl
    have h3 : tryPat1At ("youtu.be/".toList ++ l) = take11Allowed l := by
      unfold tryPat1At
      rw [hdrop, hA, hC, hpref]
      cases take11Allowed l <;> rfl
    have hs1 : searchPat1 ("https://youtu.be/".toList ++ l) =
        some (l.take 11) := by
      have hskip : searchPat1 ("https://youtu.be/".toList ++ l) =
          (tryPat1At ("youtu.be/".toList ++ l) <|>
            searchPat1 ("outu.be/".toList ++ l)) := rfl
      rw [hskip, h3, ht]
      rfl
    exact extract_video_id_eq_of _ hbare _ hs1
  · have hc26 : ("https://youtube.com/embed/".toList).length = 26 := by decide
    have hbare : isBareId ("https://youtube.com/embed/".toList ++ l) = false := by
      unfold isBareId
      have hne11 : (("https://youtube.com/embed/".toList ++ l).length == 11) = false := by
        rw [List.length_append, hc26]
        simp only [beq_eq_false_iff_ne]
        omega
      rw [hne11]
      rfl
    have hpref : pat1c.isPrefixOf ("youtube.com/embed/".toList ++ l) = true :=
      isPrefixOf_append_self pat1c l
    have hdrop : ("youtube.com/embed/".toList ++ l).drop pat1c.length = l := rfl
    have hA : (if pat1a.isPrefixOf ("youtube.com/embed/".toList ++ l) then
        take11Allowed (("youtube.com/embed/".toList ++ l).drop pat1a.length)
        else none) = (none : Option (List Char)) := rfl
    have hB : (if pat1b.isPrefixOf ("youtube.com/embed/".toList ++ l) then
        take11Allowed (("youtube.com/embed/".toList ++ l).drop pat1b.length)
        else none) = (none : Option (List Char)) := rfl
    have h3 : tryPat1At ("youtube.com/embed/".toList ++ l) = take11Allowed l := by
      unfold tryPat1At
      rw [hdrop, hA, hB, hpref]
      cases take11Allowed l <;> rfl
    have hs1 : searchPat1 ("https://youtube.com/embed/".toList ++ l) =
        some (l.take 11) := by
      have hskip : searchPat1 ("https://youtube.com/embed/".toList ++ l) =
          (tryPat1At ("youtube.com/embed/".toList ++ l) <|>
            searchPat1 ("outube.com/embed/".toList ++ l)) := rfl
      rw [hskip, h3, ht]
      rfl
    exact extract_video_id_eq_of _ hbare _ hs1

/-- Witness for C10: a 12-character run after the watch parameter yields
its first 11 characters. -/
theorem extract_video_id_overlong_witness :
    11 < ("abcdefghijkl".toList).length ∧
      extract_video_id ("https://youtube.com/watch?v=" ++
          String.mk ("abcdefghijkl".toList)) =
        some (String.mk (("abcdefghijkl".toList).take 11)) :=
  ⟨by decide, (extract_video_id_overlong _ (by decide) (by decide)).1⟩
